import Mathlib

/-!
Verification of the `DateTime` picker widget of `errands/widgets/components.py`.

The widget's observable logic is embedded shallowly: the widget instance becomes
the record `DTState`, each Python method becomes a Lean function on `DTState`,
and the GTK sub-controls (two spin buttons and a calendar) become the fields
`hour`, `minutes` and `calendar` together with models of their `set_value` /
`select_day` operations.  Emissions of the `changed` signal are counted in the
field `emits`.  Library calls (`datetime.datetime.fromisoformat`, `strftime`,
`GLib.DateTime.format`, `int`, `str.split`) are modelled by executable Lean
functions over lists of characters.
-/

namespace Errands

/-- Value of a decimal digit character, `none` on a non-digit.  Model of the
per-character step of Python's `int` parsing. -/
def digit? (c : Char) : Option Nat :=
  if c.isDigit then some (c.toNat - 48) else none

/-- Big-endian decimal digit characters of `n % 10 ^ w`, zero-padded to width
`w`.  Model of zero-padded fixed-width fields of C `strftime` (`%Y` `%m` `%d`
`%H` `%M`) for values that fit in the width, which all call sites guarantee. -/
def digitsOf : Nat → Nat → List Char
  | 0, _ => []
  | w + 1, n => digitsOf w (n / 10) ++ [Nat.digitChar (n % 10)]

/-- Base-10 value of a list of digit characters.  Model of Python `int` on the
digit-only strings this program passes to it. -/
def natOfDigits (cs : List Char) : Nat :=
  cs.foldl (fun a c => a * 10 + (c.toNat - 48)) 0

/-- Read exactly two decimal digits, returning their value and the rest. -/
def digits2 : List Char → Option (Nat × List Char)
  | c1 :: c2 :: rest =>
    match digit? c1, digit? c2 with
    | some a, some b => some (a * 10 + b, rest)
    | _, _ => none
  | _ => none

/-- Read exactly four decimal digits, returning their value and the rest. -/
def digits4 (cs : List Char) : Option (Nat × List Char) :=
  match digits2 cs with
  | some (a, cs1) =>
    match digits2 cs1 with
    | some (b, cs2) => some (a * 100 + b, cs2)
    | none => none
  | none => none

/-- Model of the Python idiom `f"0{x}" if len(x) == 1 else x` applied to
`str(n)`: zero-pad a decimal rendering to (at least) two characters.  Used by
`DateTime._on_date_time_changed` for the hour and minute fields. -/
def pad2str (n : Nat) : String :=
  if (toString n).length = 1 then "0" ++ toString n else toString n

/-- Calendar date, as tracked by the `Gtk.Calendar` sub-control. -/
structure Date where
  year : Nat
  month : Nat
  day : Nat
deriving DecidableEq, Repr

/-- Naive `datetime.datetime` value as produced by
`datetime.datetime.fromisoformat`. -/
structure PyDateTime where
  year : Nat
  month : Nat
  day : Nat
  hour : Nat
  minute : Nat
  second : Nat
deriving DecidableEq, Repr

/-- Gregorian leap year, as in Python's `datetime` module. -/
def isLeap (y : Nat) : Prop := (y % 4 = 0 ∧ y % 100 ≠ 0) ∨ y % 400 = 0

instance (y : Nat) : Decidable (isLeap y) := by
  unfold isLeap; exact inferInstance

/-- Number of days of month `m` of year `y` (months outside `1..12` are mapped
to 31; validity checks exclude them separately). -/
def daysInMonth (y m : Nat) : Nat :=
  if m = 2 then (if isLeap y then 29 else 28)
  else if m = 4 ∨ m = 6 ∨ m = 9 ∨ m = 11 then 30
  else 31

/-- Validity of a calendar date for Python's `datetime`: year in
`MINYEAR..MAXYEAR = 1..9999`, month in `1..12`, day in range for the month. -/
def validDate (y m d : Nat) : Prop :=
  1 ≤ y ∧ y ≤ 9999 ∧ 1 ≤ m ∧ m ≤ 12 ∧ 1 ≤ d ∧ d ≤ daysInMonth y m

instance (y m d : Nat) : Decidable (validDate y m d) := by
  unfold validDate; exact inferInstance

/-- Next calendar day: model of `datetime.datetime.now() + datetime.timedelta(1)`
projected to the date fields (naive datetime arithmetic advances the calendar
date by exactly one day). -/
def nextDay (dte : Date) : Date :=
  if dte.day < daysInMonth dte.year dte.month then ⟨dte.year, dte.month, dte.day + 1⟩
  else if dte.month < 12 then ⟨dte.year, dte.month + 1, 1⟩
  else ⟨dte.year + 1, 1, 1⟩

/-- Date part of `datetime.datetime.fromisoformat`: extended `YYYY-MM-DD` or
basic `YYYYMMDD`; returns the fields and the unconsumed rest. -/
def parseDate (cs : List Char) : Option ((Nat × Nat × Nat) × List Char) :=
  match digits4 cs with
  | none => none
  | some (y, cs1) =>
    match cs1 with
    | [] => none
    | c :: cs2 =>
      if c = '-' then
        match digits2 cs2 with
        | none => none
        | some (m, cs3) =>
          match cs3 with
          | [] => none
          | c2 :: cs4 =>
            if c2 = '-' then
              match digits2 cs4 with
              | none => none
              | some (d, cs5) => some ((y, m, d), cs5)
            else none
      else
        match digits2 (c :: cs2) with
        | none => none
        | some (m, cs3) =>
          match digits2 cs3 with
          | none => none
          | some (d, cs4) => some ((y, m, d), cs4)

/-- Time part of `datetime.datetime.fromisoformat`: `HH`, `HH:MM`, `HH:MM:SS`,
`HHMM` or `HHMMSS`, consuming the whole input. -/
def parseTime (cs : List Char) : Option (Nat × Nat × Nat) :=
  match digits2 cs with
  | none => none
  | some (h, cs1) =>
    match cs1 with
    | [] => some (h, 0, 0)
    | c :: cs2 =>
      if c = ':' then
        match digits2 cs2 with
        | none => none
        | some (mi, cs3) =>
          match cs3 with
          | [] => some (h, mi, 0)
          | c2 :: cs4 =>
            if c2 = ':' then
              match digits2 cs4 with
              | none => none
              | some (se, cs5) =>
                match cs5 with
                | [] => some (h, mi, se)
                | _ => none
            else none
      else
        match digits2 cs1 with
        | none => none
        | some (mi, cs3) =>
          match cs3 with
          | [] => some (h, mi, 0)
          | _ =>
            match digits2 cs3 with
            | none => none
            | some (se, cs5) =>
              match cs5 with
              | [] => some (h, mi, se)
              | _ => none

/-- Model of `datetime.datetime.fromisoformat` (Python ≥ 3.11) restricted to
the calendar-date formats without fractional seconds, timezone offsets, or
week/ordinal dates: a date in extended or basic form, optionally followed by a
single separator character (any character, per CPython) and a time.  All
strings this program constructs fall in this fragment; `none` models the
`ValueError` raised on malformed input. -/
def fromisoformat (s : String) : Option PyDateTime :=
  match parseDate s.data with
  | none => none
  | some ((y, m, d), rest) =>
    match rest with
    | [] => if validDate y m d then some ⟨y, m, d, 0, 0, 0⟩ else none
    | _sep :: timeCs =>
      match parseTime timeCs with
      | none => none
      | some (h, mi, se) =>
        if validDate y m d ∧ h ≤ 23 ∧ mi ≤ 59 ∧ se ≤ 59 then
          some ⟨y, m, d, h, mi, se⟩
        else none

/-- Canonical string `YYYYMMDDThhmm00` of a date-time tuple, per spec §3: eight
date digits, a literal `T`, four time digits, and literal seconds `00`. -/
def canonicalString (y mo d h mi : Nat) : String :=
  String.mk (digitsOf 4 y ++ digitsOf 2 mo ++ digitsOf 2 d ++
    'T' :: (digitsOf 2 h ++ digitsOf 2 mi ++ ['0', '0']))

/-- Model of `strftime("%Y%m%dT%H%M00")` on a `datetime` value: the seconds are
the literal text `00` of the format string and the second field is ignored. -/
def strftime_YmdTHM00 (t : PyDateTime) : String :=
  String.mk (digitsOf 4 t.year ++ digitsOf 2 t.month ++ digitsOf 2 t.day ++
    'T' :: (digitsOf 2 t.hour ++ digitsOf 2 t.minute ++ ['0', '0']))

/-- Model of `strftime("%Y%m%dT000000")` on a `datetime` value, projected to
its date fields (the format string ignores the time fields entirely). -/
def strftime_YmdT000000 (dte : Date) : String :=
  String.mk (digitsOf 4 dte.year ++ digitsOf 2 dte.month ++ digitsOf 2 dte.day ++
    'T' :: ['0', '0', '0', '0', '0', '0'])

/-- Model of `self.calendar.get_date().format("%Y%m%d")`: the calendar's
selected day as eight zero-padded digits. -/
def formatYMD (dte : Date) : String :=
  String.mk (digitsOf 4 dte.year ++ digitsOf 2 dte.month ++ digitsOf 2 dte.day)

/-- English month name, as produced by `%B` in the C locale. -/
def monthName : Nat → String
  | 1 => "January" | 2 => "February" | 3 => "March" | 4 => "April"
  | 5 => "May" | 6 => "June" | 7 => "July" | 8 => "August"
  | 9 => "September" | 10 => "October" | 11 => "November" | 12 => "December"
  | _ => ""

/-- Model of the gettext lookup `_(...)`: identity (untranslated locale). -/
def gettext (s : String) : String := s

/-- Observable state of one `DateTime` widget instance: the stored canonical
string `self.datetime`, the suppression flag `self.lock_signals`, the values of
the two spin buttons and of the calendar sub-control, and a count of emissions
of the `changed` signal. -/
structure DTState where
  datetime : String
  lock_signals : Bool
  hour : Nat
  minutes : Nat
  calendar : Date
  emits : Nat
deriving DecidableEq, Repr

/-- Outcome of an operation that can raise: the widget state left behind and
whether an exception propagated to the caller. -/
structure SetResult where
  state : DTState
  raised : Bool
deriving DecidableEq, Repr

/-- State after `DateTime()` construction: the class attributes set
`datetime = ""` and `lock_signals = True`; both spin buttons start at 0 (the
`Gtk.Adjustment` default) and the calendar starts on the current local day
`today`.  No sub-control value changes after the handlers are connected in
`_build_ui`, so no handler runs and nothing is emitted during construction. -/
def initState (today : Date) : DTState :=
  { datetime := "", lock_signals := true, hour := 0, minutes := 0,
    calendar := today, emits := 0 }

/-- Model of `DateTime._on_date_time_changed`: recompute `self.datetime` from
the two spin buttons and the calendar, then emit `changed` unless
`self.lock_signals` is set. -/
def on_date_time_changed (s : DTState) : DTState :=
  let hourS := pad2str s.hour
  let minS := pad2str s.minutes
  let dateS := formatYMD s.calendar
  let s' := { s with datetime := dateS ++ "T" ++ hourS ++ minS ++ "00" }
  if s'.lock_signals then s' else { s' with emits := s'.emits + 1 }

/-- Model of `self.hour.set_value(v)`: the adjustment clamps to `0..23` and the
`value-changed` signal (hence `_on_date_time_changed`) fires exactly when the
stored value actually changes. -/
def hour_set_value (v : Nat) (s : DTState) : DTState :=
  let v' := min v 23
  if v' = s.hour then s else on_date_time_changed { s with hour := v' }

/-- Model of `self.minutes.set_value(v)`: clamped to `0..59`, firing
`value-changed` exactly on an actual change. -/
def minutes_set_value (v : Nat) (s : DTState) : DTState :=
  let v' := min v 59
  if v' = s.minutes then s else on_date_time_changed { s with minutes := v' }

/-- Model of `self.calendar.select_day(d)`: the `day-selected` signal (hence
`_on_date_time_changed`) fires exactly when the selected date actually
changes. -/
def calendar_select_day (dte : Date) (s : DTState) : DTState :=
  if dte = s.calendar then s else on_date_time_changed { s with calendar := dte }

/-- Model of `DateTime.get_datetime`. -/
def get_datetime (s : DTState) : String := s.datetime

/-- Model of `DateTime.get_human_datetime`: `"HH:MM, "` sliced out of the
stored string followed by the calendar's day formatted `"%d %B, %Y"`, or the
localized `"Not Set"` placeholder when the stored string is empty. -/
def get_human_datetime (s : DTState) : String :=
  if s.datetime ≠ "" then
    String.mk ((s.datetime.data.drop 9).take 2) ++ ":" ++
      String.mk ((s.datetime.data.drop 11).take 2) ++ ", " ++
      String.mk (digitsOf 2 s.calendar.day) ++ " " ++
      monthName s.calendar.month ++ ", " ++
      String.mk (digitsOf 4 s.calendar.year)
  else gettext "Not Set"

/-- Model of `DateTime.get_datetime_as_int`:
`int(self.datetime[:8] + self.datetime[9:])` when the stored string is
non-empty, else `0`.  `none` models `int` raising `ValueError` on a non-digit
argument (never reached from canonical states). -/
def get_datetime_as_int (s : DTState) : Option Nat :=
  if s.datetime ≠ "" then
    let cs := s.datetime.data.take 8 ++ s.datetime.data.drop 9
    if cs ≠ [] ∧ cs.all Char.isDigit then some (natOfDigits cs) else none
  else some 0

/-- Model of `DateTime.set_datetime`: set `lock_signals`, then for a non-empty
argument re-normalize it through `fromisoformat`/`strftime` and push the
pieces into the two spin buttons and the calendar, or for an empty argument
reset the spin buttons to 0 and select the current local day `today`; finally
store the normalized string and clear `lock_signals`.  When `fromisoformat`
raises, the exception propagates immediately: the state keeps every field
unchanged except `lock_signals`, which was already set. -/
def set_datetime (dtArg : String) (today : Date) (s : DTState) : SetResult :=
  let s1 := { s with lock_signals := true }
  if dtArg = "" then
    let s2 := hour_set_value 0 s1
    let s3 := minutes_set_value 0 s2
    let s4 := calendar_select_day today s3
    ⟨{ s4 with datetime := "", lock_signals := false }, false⟩
  else
    match fromisoformat dtArg with
    | none => ⟨s1, true⟩
    | some t =>
      let dtc := strftime_YmdTHM00 t
      let s2 := hour_set_value (natOfDigits ((dtc.data.drop 9).take 2)) s1
      let s3 := minutes_set_value (natOfDigits ((dtc.data.drop 11).take 2)) s2
      let s4 := calendar_select_day
        ⟨natOfDigits (dtc.data.take 4), natOfDigits ((dtc.data.drop 4).take 2),
          natOfDigits ((dtc.data.drop 6).take 2)⟩ s3
      ⟨{ s4 with datetime := dtc, lock_signals := false }, false⟩

/-- Model of `DateTime._on_now_btn_clicked`: `set_datetime` on the current
local instant formatted `"%Y%m%dT%H%M00"`, then one explicit emit of
`changed`.  The emit is skipped when `set_datetime` raises, since the
exception propagates first. -/
def on_now_btn_clicked (now : PyDateTime) (s : DTState) : SetResult :=
  let r := set_datetime (strftime_YmdTHM00 now) ⟨now.year, now.month, now.day⟩ s
  if r.raised then r else ⟨{ r.state with emits := r.state.emits + 1 }, false⟩

/-- Model of `DateTime._on_today_btn_clicked`: `set_datetime` on the current
local day formatted `"%Y%m%dT000000"`, then one explicit emit of `changed`. -/
def on_today_btn_clicked (now : PyDateTime) (s : DTState) : SetResult :=
  let r := set_datetime (strftime_YmdT000000 ⟨now.year, now.month, now.day⟩)
    ⟨now.year, now.month, now.day⟩ s
  if r.raised then r else ⟨{ r.state with emits := r.state.emits + 1 }, false⟩

/-- Model of `DateTime._on_tomorrow_btn_clicked`: `set_datetime` on the
current local day plus one formatted `"%Y%m%dT000000"`, then one explicit emit
of `changed`. -/
def on_tomorrow_btn_clicked (now : PyDateTime) (s : DTState) : SetResult :=
  let r := set_datetime (strftime_YmdT000000 (nextDay ⟨now.year, now.month, now.day⟩))
    ⟨now.year, now.month, now.day⟩ s
  if r.raised then r else ⟨{ r.state with emits := r.state.emits + 1 }, false⟩

/-- Model of `DateTime._on_clear_btn_clicked`: set `self.datetime = ""`
directly (without going through `set_datetime`, so the spin buttons and the
calendar keep their values) and emit `changed` once. -/
def on_clear_btn_clicked (s : DTState) : DTState :=
  { s with datetime := "", emits := s.emits + 1 }

/-- Split a character list at every `':'`.  Model of Python `str.split(":")`. -/
def splitColonChars : List Char → List (List Char)
  | [] => [[]]
  | c :: cs =>
    if c = ':' then [] :: splitColonChars cs
    else
      match splitColonChars cs with
      | r :: rest => (c :: r) :: rest
      | [] => [[c]]

/-- Model of `DateTime._on_time_preset_clicked`: split the button's label at
`":"` into exactly an hour part and a minute part, `int` them, and push them
into the two spin buttons (hour first).  `none` models the `ValueError` raised
when the label does not split into exactly two parts; the four preset buttons
carry the labels `"09:00"`, `"13:00"`, `"17:00"`, `"20:00"`. -/
def on_time_preset_clicked (label : String) (s : DTState) : Option DTState :=
  match splitColonChars label.data with
  | [hcs, mcs] => some (minutes_set_value (natOfDigits mcs) (hour_set_value (natOfDigits hcs) s))
  | _ => none

/-- Concrete widget state used to evaluate the theorems: no stored value,
suppression off, hour 9, minute 5, calendar on 2024-01-15. -/
def sampleState : DTState :=
  { datetime := "", lock_signals := false, hour := 9, minutes := 5,
    calendar := ⟨2024, 1, 15⟩, emits := 0 }

/-- Concrete widget state holding the canonical string 20240115T090000. -/
def sampleSetState : DTState :=
  { datetime := canonicalString 2024 1 15 9 0, lock_signals := false, hour := 9,
    minutes := 0, calendar := ⟨2024, 1, 15⟩, emits := 0 }

/-! ### Arithmetic and character lemmas -/

lemma digit?_digitChar : ∀ k, k < 10 → digit? (Nat.digitChar k) = some k := by decide

lemma digitChar_ne_dash : ∀ k, k < 10 → Nat.digitChar k ≠ '-' := by decide

lemma digitChar_ne_colon : ∀ k, k < 10 → Nat.digitChar k ≠ ':' := by decide

lemma digitChar_isDigit : ∀ k, k < 10 → (Nat.digitChar k).isDigit = true := by decide

lemma digitChar_toNat_sub : ∀ k, k < 10 → (Nat.digitChar k).toNat - 48 = k := by decide

lemma mod10_lt (k : Nat) : k % 10 < 10 := Nat.mod_lt _ (by omega)

lemma pad2str_eq_digitsOf : ∀ n, n < 100 → pad2str n = String.mk (digitsOf 2 n) := by decide

lemma digitsOf_two (n : Nat) :
    digitsOf 2 n = [Nat.digitChar (n / 10 % 10), Nat.digitChar (n % 10)] := rfl

lemma digitsOf_four (n : Nat) :
    digitsOf 4 n = [Nat.digitChar (n / 10 / 10 / 10 % 10), Nat.digitChar (n / 10 / 10 % 10),
      Nat.digitChar (n / 10 % 10), Nat.digitChar (n % 10)] := rfl

lemma canonicalString_data (y mo d h mi : Nat) :
    (canonicalString y mo d h mi).data =
      [Nat.digitChar (y / 10 / 10 / 10 % 10), Nat.digitChar (y / 10 / 10 % 10),
       Nat.digitChar (y / 10 % 10), Nat.digitChar (y % 10),
       Nat.digitChar (mo / 10 % 10), Nat.digitChar (mo % 10),
       Nat.digitChar (d / 10 % 10), Nat.digitChar (d % 10), 'T',
       Nat.digitChar (h / 10 % 10), Nat.digitChar (h % 10),
       Nat.digitChar (mi / 10 % 10), Nat.digitChar (mi % 10), '0', '0'] := rfl

lemma canonicalString_ne_empty (y mo d h mi : Nat) : canonicalString y mo d h mi ≠ "" := by
  intro hEq
  have h2 := congrArg String.data hEq
  rw [canonicalString_data] at h2
  simp at h2

lemma foldl_digitsOf (w : Nat) : ∀ n a : Nat,
    List.foldl (fun a c => a * 10 + (c.toNat - 48)) a (digitsOf w n) =
      a * 10 ^ w + n % 10 ^ w := by
  induction w with
  | zero => intro n a; simp [digitsOf, Nat.mod_one]
  | succ w ih =>
    intro n a
    rw [digitsOf, List.foldl_append, ih]
    simp only [List.foldl_cons, List.foldl_nil]
    rw [digitChar_toNat_sub (n % 10) (mod10_lt n)]
    have hmod : n % 10 ^ (w + 1) = n % 10 + 10 * (n / 10 % 10 ^ w) := by
      have h10 : (10 : Nat) ^ (w + 1) = 10 * 10 ^ w := by ring
      rw [h10, Nat.mod_mul]
    rw [hmod, pow_succ]
    ring

/-! ### Parser computation lemmas -/

lemma digits2_digits (a b : Nat) (rest : List Char) (ha : a < 10) (hb : b < 10) :
    digits2 (Nat.digitChar a :: Nat.digitChar b :: rest) = some (a * 10 + b, rest) := by
  simp [digits2, digit?_digitChar a ha, digit?_digitChar b hb]

lemma digits2_zeros (rest : List Char) : digits2 ('0' :: '0' :: rest) = some (0, rest) := rfl

lemma parseDate_digits (y mo d : Nat) (rest : List Char)
    (hy : y ≤ 9999) (hmo : mo ≤ 99) (hd : d ≤ 99) :
    parseDate (Nat.digitChar (y / 10 / 10 / 10 % 10) :: Nat.digitChar (y / 10 / 10 % 10) ::
        Nat.digitChar (y / 10 % 10) :: Nat.digitChar (y % 10) ::
        Nat.digitChar (mo / 10 % 10) :: Nat.digitChar (mo % 10) ::
        Nat.digitChar (d / 10 % 10) :: Nat.digitChar (d % 10) :: rest) =
      some ((y, mo, d), rest) := by
  simp only [parseDate, digits4,
    digits2_digits _ _ _ (mod10_lt _) (mod10_lt _),
    digitChar_ne_dash _ (mod10_lt _), if_neg, ite_false]
  simp [digits2_digits _ _ _ (mod10_lt _) (mod10_lt _),
    digitChar_ne_dash _ (mod10_lt _)]
  omega

lemma parseTime_digits (h mi : Nat) (hh : h ≤ 99) (hm : mi ≤ 99) :
    parseTime (Nat.digitChar (h / 10 % 10) :: Nat.digitChar (h % 10) ::
        Nat.digitChar (mi / 10 % 10) :: Nat.digitChar (mi % 10) :: '0' :: '0' :: []) =
      some (h, mi, 0) := by
  simp [parseTime, digits2_digits _ _ _ (mod10_lt _) (mod10_lt _),
    digitChar_ne_colon _ (mod10_lt _), digits2_zeros]
  omega

lemma fromisoformat_canonical (y mo d h mi : Nat)
    (hv : validDate y mo d) (hh : h ≤ 23) (hm : mi ≤ 59) :
    fromisoformat (canonicalString y mo d h mi) = some ⟨y, mo, d, h, mi, 0⟩ := by
  obtain ⟨h1, h2, h3, h4, h5, h6⟩ := hv
  have hd31 : daysInMonth y mo ≤ 31 := by
    unfold daysInMonth
    split
    · split <;> omega
    · split <;> omega
  unfold fromisoformat
  rw [canonicalString_data,
    parseDate_digits y mo d _ (by omega) (by omega) (by omega)]
  simp only [parseTime_digits h mi (by omega) (by omega)]
  rw [if_pos ⟨⟨h1, h2, h3, h4, h5, h6⟩, hh, hm, by omega⟩]

/-! ### Formatting equalities -/

lemma strftime_eq_canonical (y mo d h mi se : Nat) :
    strftime_YmdTHM00 ⟨y, mo, d, h, mi, se⟩ = canonicalString y mo d h mi := rfl

lemma strftime000000_eq_canonical (dte : Date) :
    strftime_YmdT000000 dte = canonicalString dte.year dte.month dte.day 0 0 := rfl

lemma string_mk_append (a b : List Char) : String.mk a ++ String.mk b = String.mk (a ++ b) := rfl

/-! ### Field and emission lemmas for the sub-control handlers -/

lemma odc_fields (s : DTState) :
    (on_date_time_changed s).hour = s.hour ∧
    (on_date_time_changed s).minutes = s.minutes ∧
    (on_date_time_changed s).calendar = s.calendar ∧
    (on_date_time_changed s).lock_signals = s.lock_signals ∧
    (on_date_time_changed s).emits = s.emits + (if s.lock_signals then 0 else 1) := by
  by_cases hb : s.lock_signals <;> simp [on_date_time_changed, hb]

lemma odc_datetime (s : DTState) (hh : s.hour ≤ 23) (hm : s.minutes ≤ 59) :
    (on_date_time_changed s).datetime =
      canonicalString s.calendar.year s.calendar.month s.calendar.day s.hour s.minutes := by
  have e1 : pad2str s.hour = String.mk (digitsOf 2 s.hour) :=
    pad2str_eq_digitsOf _ (by omega)
  have e2 : pad2str s.minutes = String.mk (digitsOf 2 s.minutes) :=
    pad2str_eq_digitsOf _ (by omega)
  have hdt : formatYMD s.calendar ++ "T" ++ pad2str s.hour ++ pad2str s.minutes ++ "00" =
      canonicalString s.calendar.year s.calendar.month s.calendar.day s.hour s.minutes := by
    rw [e1, e2]
    apply String.ext
    show (String.mk _ ++ String.mk ['T'] ++ String.mk _ ++ String.mk _ ++
      String.mk ['0', '0']).data = _
    simp only [string_mk_append, formatYMD, canonicalString]
    simp
  by_cases hb : s.lock_signals <;> simp [on_date_time_changed, hb, hdt]

lemma hour_set_value_fields (v : Nat) (s : DTState) :
    (hour_set_value v s).hour = min v 23 ∧
    (hour_set_value v s).minutes = s.minutes ∧
    (hour_set_value v s).calendar = s.calendar ∧
    (hour_set_value v s).lock_signals = s.lock_signals ∧
    (hour_set_value v s).emits =
      s.emits + (if min v 23 = s.hour then 0 else if s.lock_signals then 0 else 1) := by
  unfold hour_set_value
  by_cases hc : min v 23 = s.hour
  · simp [hc]
  · obtain ⟨f1, f2, f3, f4, f5⟩ := odc_fields { s with hour := min v 23 }
    simp only [if_neg hc]
    simp_all

lemma minutes_set_value_fields (v : Nat) (s : DTState) :
    (minutes_set_value v s).hour = s.hour ∧
    (minutes_set_value v s).minutes = min v 59 ∧
    (minutes_set_value v s).calendar = s.calendar ∧
    (minutes_set_value v s).lock_signals = s.lock_signals ∧
    (minutes_set_value v s).emits =
      s.emits + (if min v 59 = s.minutes then 0 else if s.lock_signals then 0 else 1) := by
  unfold minutes_set_value
  by_cases hc : min v 59 = s.minutes
  · simp [hc]
  · obtain ⟨f1, f2, f3, f4, f5⟩ := odc_fields { s with minutes := min v 59 }
    simp only [if_neg hc]
    simp_all

lemma calendar_select_day_fields (dte : Date) (s : DTState) :
    (calendar_select_day dte s).hour = s.hour ∧
    (calendar_select_day dte s).minutes = s.minutes ∧
    (calendar_select_day dte s).calendar = dte ∧
    (calendar_select_day dte s).lock_signals = s.lock_signals ∧
    (calendar_select_day dte s).emits =
      s.emits + (if dte = s.calendar then 0 else if s.lock_signals then 0 else 1) := by
  unfold calendar_select_day
  by_cases hc : dte = s.calendar
  · simp [hc]
  · obtain ⟨f1, f2, f3, f4, f5⟩ := odc_fields { s with calendar := dte }
    simp only [if_neg hc]
    simp_all

/-- Combined effect on the sub-control fields of the locked bulk-update chain
performed inside `set_datetime`. -/
lemma locked_chain (v w : Nat) (dte : Date) (t : DTState) (ht : t.lock_signals = true) :
    (calendar_select_day dte (minutes_set_value w (hour_set_value v t))).emits = t.emits ∧
    (calendar_select_day dte (minutes_set_value w (hour_set_value v t))).hour = min v 23 ∧
    (calendar_select_day dte (minutes_set_value w (hour_set_value v t))).minutes = min w 59 ∧
    (calendar_select_day dte (minutes_set_value w (hour_set_value v t))).calendar = dte := by
  obtain ⟨a1, a2, a3, a4, a5⟩ := hour_set_value_fields v t
  obtain ⟨b1, b2, b3, b4, b5⟩ := minutes_set_value_fields w (hour_set_value v t)
  obtain ⟨c1, c2, c3, c4, c5⟩ :=
    calendar_select_day_fields dte (minutes_set_value w (hour_set_value v t))
  have l1 : (hour_set_value v t).lock_signals = true := by rw [a4, ht]
  have l2 : (minutes_set_value w (hour_set_value v t)).lock_signals = true := by rw [b4, l1]
  refine ⟨?_, ?_, ?_, ?_⟩
  · rw [c5, l2, b5, l1, a5, ht]
    simp
  · rw [c1, b1, a1]
  · rw [c2, b2]
  · exact c3

/-! ### `set_datetime` characterizations -/

lemma set_datetime_empty (today : Date) (s : DTState) :
    set_datetime "" today s =
      ⟨{ datetime := "", lock_signals := false, hour := 0, minutes := 0,
         calendar := today, emits := s.emits }, false⟩ := by
  obtain ⟨e1, e2, e3, e4⟩ := locked_chain 0 0 today { s with lock_signals := true } rfl
  unfold set_datetime
  rw [if_pos rfl]
  simp_all [SetResult.mk.injEq, DTState.mk.injEq]

lemma set_datetime_raise (dtArg : String) (today : Date) (s : DTState)
    (h1 : dtArg ≠ "") (h2 : fromisoformat dtArg = none) :
    set_datetime dtArg today s = ⟨{ s with lock_signals := true }, true⟩ := by
  unfold set_datetime
  rw [if_neg h1, h2]

lemma set_datetime_ok (dtArg : String) (today : Date) (s : DTState) (t : PyDateTime)
    (h1 : dtArg ≠ "") (h2 : fromisoformat dtArg = some t) :
    (set_datetime dtArg today s).raised = false ∧
    (set_datetime dtArg today s).state.datetime = strftime_YmdTHM00 t ∧
    (set_datetime dtArg today s).state.lock_signals = false := by
  unfold set_datetime
  rw [if_neg h1, h2]
  exact ⟨rfl, rfl, rfl⟩

lemma set_datetime_no_emit (dtArg : String) (today : Date) (s : DTState) :
    (set_datetime dtArg today s).state.emits = s.emits := by
  by_cases h1 : dtArg = ""
  · subst h1
    rw [set_datetime_empty]
  · cases hf : fromisoformat dtArg with
    | none => rw [set_datetime_raise dtArg today s h1 hf]
    | some t =>
      unfold set_datetime
      rw [if_neg h1, hf]
      exact (locked_chain _ _ _ { s with lock_signals := true } rfl).1

/-! ### Calendar-date lemmas -/

lemma daysInMonth_bounds (y m : Nat) : 1 ≤ daysInMonth y m ∧ daysInMonth y m ≤ 31 := by
  unfold daysInMonth
  split
  · split <;> omega
  · split <;> omega

lemma validDate_nextDay (dte : Date) (h : validDate dte.year dte.month dte.day)
    (h2 : ¬(dte.year = 9999 ∧ dte.month = 12 ∧ dte.day = 31)) :
    validDate (nextDay dte).year (nextDay dte).month (nextDay dte).day := by
  obtain ⟨h1, h2', h3, h4, h5, h6⟩ := h
  unfold nextDay
  split
  · rename_i hlt
    dsimp only
    exact ⟨h1, h2', h3, h4, by omega, by omega⟩
  · rename_i hge
    split
    · rename_i hm12
      dsimp only
      obtain ⟨p1, _⟩ := daysInMonth_bounds dte.year (dte.month + 1)
      exact ⟨h1, h2', by omega, by omega, by omega, p1⟩
    · rename_i hm12
      dsimp only
      obtain ⟨p1, _⟩ := daysInMonth_bounds (dte.year + 1) 1
      have hm : dte.month = 12 := by omega
      have hd12 : daysInMonth dte.year 12 = 31 := by simp [daysInMonth]
      have hd31 : dte.day = 31 := by
        rw [hm, hd12] at h6
        rw [hm, hd12] at hge
        omega
      have hy : dte.year ≠ 9999 := fun hy => h2 ⟨hy, hm, hd31⟩
      exact ⟨by omega, by omega, by omega, by omega, by omega, p1⟩

lemma zero_char_isDigit : ('0' : Char).isDigit = true := rfl

lemma zero_char_val : ('0' : Char).toNat - 48 = 0 := rfl

/-- Combined effect of a time-preset press on the two steppers when
suppression is off: both values land, the calendar is untouched, and one
notification fires per stepper whose value actually changes. -/
lemma preset_steppers (s : DTState) (h mi : Nat) (hh : h ≤ 23) (hm : mi ≤ 59)
    (hu : s.lock_signals = false) :
    (minutes_set_value mi (hour_set_value h s)).hour = h ∧
    (minutes_set_value mi (hour_set_value h s)).minutes = mi ∧
    (minutes_set_value mi (hour_set_value h s)).calendar = s.calendar ∧
    (minutes_set_value mi (hour_set_value h s)).emits =
      s.emits + (if h = s.hour then 0 else 1) + (if mi = s.minutes then 0 else 1) := by
  obtain ⟨a1, a2, a3, a4, a5⟩ := hour_set_value_fields h s
  obtain ⟨b1, b2, b3, b4, b5⟩ := minutes_set_value_fields mi (hour_set_value h s)
  have hmin1 : min h 23 = h := Nat.min_eq_left hh
  have hmin2 : min mi 59 = mi := Nat.min_eq_left hm
  rw [hmin1] at a1 a5
  rw [hmin2] at b2 b5
  refine ⟨by rw [b1, a1], b2, by rw [b3, a3], ?_⟩
  rw [b5, a2, a4, hu, a5, hu]
  simp

/-! ### Claim theorems -/

/-- Claim C1: for every valid canonical date-time string `YYYYMMDDThhmm00`,
calling `set_datetime` on it raises no failure and a subsequent `get_datetime`
returns the string unchanged (round-trip). -/
theorem set_datetime_roundtrip (y mo d h mi : Nat) (today : Date) (s : DTState)
    (hv : validDate y mo d) (hh : h ≤ 23) (hm : mi ≤ 59) :
    (set_datetime (canonicalString y mo d h mi) today s).raised = false ∧
    get_datetime (set_datetime (canonicalString y mo d h mi) today s).state =
      canonicalString y mo d h mi := by
  have hp := fromisoformat_canonical y mo d h mi hv hh hm
  obtain ⟨r1, r2, r3⟩ :=
    set_datetime_ok _ today s _ (canonicalString_ne_empty y mo d h mi) hp
  refine ⟨r1, ?_⟩
  unfold get_datetime
  rw [r2, strftime_eq_canonical]

/-- Witness for C1 at year 2024, month 1, day 15, 09:00. -/
theorem set_datetime_roundtrip_witness :
    validDate 2024 1 15 ∧ (9 : Nat) ≤ 23 ∧ (0 : Nat) ≤ 59 ∧
    ((set_datetime (canonicalString 2024 1 15 9 0) ⟨2024, 1, 1⟩ sampleState).raised = false ∧
     get_datetime (set_datetime (canonicalString 2024 1 15 9 0) ⟨2024, 1, 1⟩ sampleState).state =
       canonicalString 2024 1 15 9 0) :=
  ⟨by decide, by decide, by decide,
    set_datetime_roundtrip 2024 1 15 9 0 ⟨2024, 1, 1⟩ sampleState (by decide) (by decide)
      (by decide)⟩

/-- Claim C2: for hour in `0..23` and minute in `0..59`, the shared handler for
the two steppers and the calendar stores the calendar's selected day as
`YYYYMMDD`, then `T`, then the hour and minute zero-padded to two digits, then
`00`, and bumps the change-notification count exactly when suppression is not
active. -/
theorem on_date_time_changed_spec (s : DTState) (hh : s.hour ≤ 23) (hm : s.minutes ≤ 59) :
    (on_date_time_changed s).datetime =
      canonicalString s.calendar.year s.calendar.month s.calendar.day s.hour s.minutes ∧
    (on_date_time_changed s).emits = s.emits + (if s.lock_signals then 0 else 1) :=
  ⟨odc_datetime s hh hm, (odc_fields s).2.2.2.2⟩

/-- Witness for C2 at hour 9, minute 5, calendar 2024-01-15, suppression off. -/
theorem on_date_time_changed_spec_witness :
    sampleState.hour ≤ 23 ∧ sampleState.minutes ≤ 59 ∧
    ((on_date_time_changed sampleState).datetime = canonicalString 2024 1 15 9 5 ∧
     (on_date_time_changed sampleState).emits =
       sampleState.emits + (if sampleState.lock_signals then 0 else 1)) :=
  ⟨by decide, by decide, on_date_time_changed_spec sampleState (by decide) (by decide)⟩

/-- Claim C3: `set_datetime` never emits a change notification itself, for any
argument (empty, canonical or malformed): its internal stepper and calendar
updates run suppressed and it performs no explicit emit of its own. -/
theorem set_datetime_silent (dtArg : String) (today : Date) (s : DTState) :
    (set_datetime dtArg today s).state.emits = s.emits :=
  set_datetime_no_emit dtArg today s

/-- Claim C6: immediately after construction the value is unset:
`get_datetime` returns the empty string, `get_human_datetime` the localized
"Not Set" placeholder, and `get_datetime_as_int` 0. -/
theorem init_getters_unset (today : Date) :
    get_datetime (initState today) = "" ∧
    get_human_datetime (initState today) = gettext "Not Set" ∧
    get_datetime_as_int (initState today) = some 0 := by
  refine ⟨rfl, ?_, ?_⟩
  · unfold get_human_datetime initState
    simp
  · unfold get_datetime_as_int initState
    simp

/-- Claim C8: a malformed non-empty input makes `set_datetime` raise a parse
failure that propagates to the caller, and the stored canonical string — hence
the result of every getter — is unchanged by the failed call. -/
theorem set_datetime_parse_failure (dtArg : String) (today : Date) (s : DTState)
    (hne : dtArg ≠ "") (hbad : fromisoformat dtArg = none) :
    (set_datetime dtArg today s).raised = true ∧
    (set_datetime dtArg today s).state.datetime = s.datetime ∧
    get_datetime (set_datetime dtArg today s).state = get_datetime s ∧
    get_human_datetime (set_datetime dtArg today s).state = get_human_datetime s ∧
    get_datetime_as_int (set_datetime dtArg today s).state = get_datetime_as_int s := by
  rw [set_datetime_raise dtArg today s hne hbad]
  exact ⟨rfl, rfl, rfl, rfl, rfl⟩

/-- Witness for C8 on the malformed input `"bogus"`. -/
theorem set_datetime_parse_failure_witness :
    ("bogus" ≠ "") ∧ fromisoformat "bogus" = none ∧
    ((set_datetime "bogus" ⟨2024, 1, 1⟩ sampleSetState).raised = true ∧
     (set_datetime "bogus" ⟨2024, 1, 1⟩ sampleSetState).state.datetime = sampleSetState.datetime ∧
     get_datetime (set_datetime "bogus" ⟨2024, 1, 1⟩ sampleSetState).state =
       get_datetime sampleSetState ∧
     get_human_datetime (set_datetime "bogus" ⟨2024, 1, 1⟩ sampleSetState).state =
       get_human_datetime sampleSetState ∧
     get_datetime_as_int (set_datetime "bogus" ⟨2024, 1, 1⟩ sampleSetState).state =
       get_datetime_as_int sampleSetState) :=
  ⟨by decide, rfl, set_datetime_parse_failure "bogus" ⟨2024, 1, 1⟩ sampleSetState (by decide) rfl⟩

/-- Counterexample to claim C4 as stated: the claim says Clear, like the other
three presets, calls `set_datetime` and then emits; but `_on_clear_btn_clicked`
assigns the empty string directly, so at a state whose hour stepper holds 9 the
press leaves the stepper at 9, while a `set_datetime("")`-then-emit sequence
would have reset it to 0 — the two end states are observably different. -/
theorem preset_clear_cex :
    (on_clear_btn_clicked sampleState).hour = 9 ∧
    ({ (set_datetime "" ⟨2024, 1, 15⟩ sampleState).state with
        emits := (set_datetime "" ⟨2024, 1, 15⟩ sampleState).state.emits + 1 }).hour = 0 ∧
    on_clear_btn_clicked sampleState ≠
      { (set_datetime "" ⟨2024, 1, 15⟩ sampleState).state with
        emits := (set_datetime "" ⟨2024, 1, 15⟩ sampleState).state.emits + 1 } := by
  refine ⟨rfl, ?_, ?_⟩ <;> decide

/-- Claim C4 amended: the three date presets Now, Today and Tomorrow each call
`set_datetime` (which stays silent) and then emit exactly one change
notification in total per press; Clear also emits exactly one notification and
leaves the value unset (the empty string), but it does not call
`set_datetime` — it empties the stored string directly, leaving the hour
stepper, minute stepper and calendar untouched.  The `now` instant is assumed
to be a real local time not on the last representable day. -/
theorem preset_buttons_emit_once (now : PyDateTime) (s : DTState)
    (hv : validDate now.year now.month now.day) (hh : now.hour ≤ 23) (hm : now.minute ≤ 59)
    (hmax : ¬(now.year = 9999 ∧ now.month = 12 ∧ now.day = 31)) :
    (on_now_btn_clicked now s).raised = false ∧
    (on_now_btn_clicked now s).state.emits = s.emits + 1 ∧
    (on_today_btn_clicked now s).raised = false ∧
    (on_today_btn_clicked now s).state.emits = s.emits + 1 ∧
    (on_tomorrow_btn_clicked now s).raised = false ∧
    (on_tomorrow_btn_clicked now s).state.emits = s.emits + 1 ∧
    (on_clear_btn_clicked s).emits = s.emits + 1 ∧
    (on_clear_btn_clicked s).datetime = "" ∧
    (on_clear_btn_clicked s).hour = s.hour ∧
    (on_clear_btn_clicked s).minutes = s.minutes ∧
    (on_clear_btn_clicked s).calendar = s.calendar := by
  have e1 : strftime_YmdTHM00 now =
      canonicalString now.year now.month now.day now.hour now.minute := rfl
  have hp1 : fromisoformat (strftime_YmdTHM00 now) =
      some ⟨now.year, now.month, now.day, now.hour, now.minute, 0⟩ := by
    rw [e1]
    exact fromisoformat_canonical _ _ _ _ _ hv hh hm
  have hne1 : strftime_YmdTHM00 now ≠ "" := by
    rw [e1]
    exact canonicalString_ne_empty _ _ _ _ _
  obtain ⟨r1, _, _⟩ := set_datetime_ok _ ⟨now.year, now.month, now.day⟩ s _ hne1 hp1
  have he1 := set_datetime_no_emit (strftime_YmdTHM00 now) ⟨now.year, now.month, now.day⟩ s
  have hp2 : fromisoformat (strftime_YmdT000000 ⟨now.year, now.month, now.day⟩) =
      some ⟨now.year, now.month, now.day, 0, 0, 0⟩ := by
    rw [strftime000000_eq_canonical]
    exact fromisoformat_canonical _ _ _ _ _ hv (by omega) (by omega)
  have hne2 : strftime_YmdT000000 (⟨now.year, now.month, now.day⟩ : Date) ≠ "" := by
    rw [strftime000000_eq_canonical]
    exact canonicalString_ne_empty _ _ _ _ _
  obtain ⟨r2, _, _⟩ := set_datetime_ok _ ⟨now.year, now.month, now.day⟩ s _ hne2 hp2
  have he2 := set_datetime_no_emit (strftime_YmdT000000 ⟨now.year, now.month, now.day⟩)
    ⟨now.year, now.month, now.day⟩ s
  have hv3 := validDate_nextDay ⟨now.year, now.month, now.day⟩ hv hmax
  have hp3 : fromisoformat (strftime_YmdT000000 (nextDay ⟨now.year, now.month, now.day⟩)) =
      some ⟨(nextDay ⟨now.year, now.month, now.day⟩).year,
        (nextDay ⟨now.year, now.month, now.day⟩).month,
        (nextDay ⟨now.year, now.month, now.day⟩).day, 0, 0, 0⟩ := by
    rw [strftime000000_eq_canonical]
    exact fromisoformat_canonical _ _ _ _ _ hv3 (by omega) (by omega)
  have hne3 : strftime_YmdT000000 (nextDay ⟨now.year, now.month, now.day⟩) ≠ "" := by
    rw [strftime000000_eq_canonical]
    exact canonicalString_ne_empty _ _ _ _ _
  obtain ⟨r3, _, _⟩ := set_datetime_ok _ ⟨now.year, now.month, now.day⟩ s _ hne3 hp3
  have he3 := set_datetime_no_emit
    (strftime_YmdT000000 (nextDay ⟨now.year, now.month, now.day⟩))
    ⟨now.year, now.month, now.day⟩ s
  refine ⟨?_, ?_, ?_, ?_, ?_, ?_, rfl, rfl, rfl, rfl, rfl⟩
  · simp [on_now_btn_clicked, r1]
  · simp [on_now_btn_clicked, r1, he1]
  · simp [on_today_btn_clicked, r2]
  · simp [on_today_btn_clicked, r2, he2]
  · simp [on_tomorrow_btn_clicked, r3]
  · simp [on_tomorrow_btn_clicked, r3, he3]

/-- Witness for C4 at the instant 2024-01-15 09:30. -/
theorem preset_buttons_emit_once_witness :
    validDate 2024 1 15 ∧ (9 : Nat) ≤ 23 ∧ (30 : Nat) ≤ 59 ∧
    ¬((2024 : Nat) = 9999 ∧ (1 : Nat) = 12 ∧ (15 : Nat) = 31) ∧
    ((on_now_btn_clicked ⟨2024, 1, 15, 9, 30, 0⟩ sampleState).raised = false ∧
     (on_now_btn_clicked ⟨2024, 1, 15, 9, 30, 0⟩ sampleState).state.emits =
       sampleState.emits + 1 ∧
     (on_today_btn_clicked ⟨2024, 1, 15, 9, 30, 0⟩ sampleState).raised = false ∧
     (on_today_btn_clicked ⟨2024, 1, 15, 9, 30, 0⟩ sampleState).state.emits =
       sampleState.emits + 1 ∧
     (on_tomorrow_btn_clicked ⟨2024, 1, 15, 9, 30, 0⟩ sampleState).raised = false ∧
     (on_tomorrow_btn_clicked ⟨2024, 1, 15, 9, 30, 0⟩ sampleState).state.emits =
       sampleState.emits + 1 ∧
     (on_clear_btn_clicked sampleState).emits = sampleState.emits + 1 ∧
     (on_clear_btn_clicked sampleState).datetime = "" ∧
     (on_clear_btn_clicked sampleState).hour = sampleState.hour ∧
     (on_clear_btn_clicked sampleState).minutes = sampleState.minutes ∧
     (on_clear_btn_clicked sampleState).calendar = sampleState.calendar) :=
  ⟨by decide, by decide, by decide, by decide,
    preset_buttons_emit_once ⟨2024, 1, 15, 9, 30, 0⟩ sampleState (by decide) (by decide)
      (by decide) (by decide)⟩

/-- Counterexample to claim C5 as stated: the suppression flag is still true
immediately after construction (it is cleared only by the first `set_datetime`
call), so a direct user edit of the hour stepper right after construction
emits no change notification instead of exactly one. -/
theorem construction_suppression_cex :
    (initState ⟨2024, 1, 15⟩).lock_signals = true ∧
    (hour_set_value 1 (initState ⟨2024, 1, 15⟩)).emits = 0 := by
  refine ⟨rfl, ?_⟩
  decide

/-- Claim C5 amended: the suppression flag is true during construction and
remains true after construction until the first `set_datetime` call completes
(which clears it); a direct user edit immediately after construction therefore
emits no notification, while once the flag is false a direct user edit of the
hour stepper, minute stepper, or calendar day emits exactly one change
notification. -/
theorem suppression_after_construction (today dte : Date) (v w : Nat) (s : DTState)
    (hun : s.lock_signals = false) (hv : min v 23 ≠ s.hour) (hw : min w 59 ≠ s.minutes)
    (hd : dte ≠ s.calendar) :
    (initState today).lock_signals = true ∧
    (hour_set_value v (initState today)).emits = 0 ∧
    (set_datetime "" today (initState today)).state.lock_signals = false ∧
    (hour_set_value v s).emits = s.emits + 1 ∧
    (minutes_set_value w s).emits = s.emits + 1 ∧
    (calendar_select_day dte s).emits = s.emits + 1 := by
  refine ⟨rfl, ?_, ?_, ?_, ?_, ?_⟩
  · obtain ⟨_, _, _, _, e⟩ := hour_set_value_fields v (initState today)
    rw [e]
    simp [initState]
  · rw [set_datetime_empty]
  · obtain ⟨_, _, _, _, e⟩ := hour_set_value_fields v s
    rw [e, if_neg hv, hun]
    simp
  · obtain ⟨_, _, _, _, e⟩ := minutes_set_value_fields w s
    rw [e, if_neg hw, hun]
    simp
  · obtain ⟨_, _, _, _, e⟩ := calendar_select_day_fields dte s
    rw [e, if_neg hd, hun]
    simp

/-- Witness for the amended C5 at a concrete unlocked state. -/
theorem suppression_after_construction_witness :
    sampleState.lock_signals = false ∧ min 1 23 ≠ sampleState.hour ∧
    min 1 59 ≠ sampleState.minutes ∧ (⟨2024, 2, 2⟩ : Date) ≠ sampleState.calendar ∧
    ((initState ⟨2024, 1, 1⟩).lock_signals = true ∧
     (hour_set_value 1 (initState ⟨2024, 1, 1⟩)).emits = 0 ∧
     (set_datetime "" ⟨2024, 1, 1⟩ (initState ⟨2024, 1, 1⟩)).state.lock_signals = false ∧
     (hour_set_value 1 sampleState).emits = sampleState.emits + 1 ∧
     (minutes_set_value 1 sampleState).emits = sampleState.emits + 1 ∧
     (calendar_select_day ⟨2024, 2, 2⟩ sampleState).emits = sampleState.emits + 1) :=
  ⟨rfl, by decide, by decide, by decide,
    suppression_after_construction ⟨2024, 1, 1⟩ ⟨2024, 2, 2⟩ 1 1 sampleState rfl
      (by decide) (by decide) (by decide)⟩

/-- Claim C7: for a set state holding a canonical string, `get_datetime_as_int`
returns that string with the literal `T` removed read as a base-10 integer
(the digits of year, month, day, hour, minute, `00` at their decimal places),
and for an unset state it returns 0. -/
theorem get_datetime_as_int_spec (s s2 : DTState) (y mo d h mi : Nat)
    (hy : y ≤ 9999) (hmo : mo ≤ 99) (hd : d ≤ 99) (hh : h ≤ 99) (hm : mi ≤ 99)
    (hs : s.datetime = canonicalString y mo d h mi) (hs2 : s2.datetime = "") :
    get_datetime_as_int s =
      some (y * 10000000000 + mo * 100000000 + d * 1000000 + h * 10000 + mi * 100) ∧
    get_datetime_as_int s2 = some 0 := by
  constructor
  · have hcs : (canonicalString y mo d h mi).data.take 8 ++
        (canonicalString y mo d h mi).data.drop 9 =
        [Nat.digitChar (y / 10 / 10 / 10 % 10), Nat.digitChar (y / 10 / 10 % 10),
         Nat.digitChar (y / 10 % 10), Nat.digitChar (y % 10),
         Nat.digitChar (mo / 10 % 10), Nat.digitChar (mo % 10),
         Nat.digitChar (d / 10 % 10), Nat.digitChar (d % 10),
         Nat.digitChar (h / 10 % 10), Nat.digitChar (h % 10),
         Nat.digitChar (mi / 10 % 10), Nat.digitChar (mi % 10), '0', '0'] := by
      rw [canonicalString_data]
      rfl
    unfold get_datetime_as_int
    rw [hs, if_pos (canonicalString_ne_empty y mo d h mi), hcs]
    rw [if_pos ⟨by simp, by
      simp [List.all, digitChar_isDigit _ (mod10_lt _), zero_char_isDigit]⟩]
    refine congrArg some ?_
    unfold natOfDigits
    simp only [List.foldl_cons, List.foldl_nil,
      digitChar_toNat_sub _ (mod10_lt _), zero_char_val]
    omega
  · unfold get_datetime_as_int
    rw [hs2]
    simp

/-- Witness for C7: the spec's own example 20240115T090000 gives
20240115090000, and the freshly constructed state gives 0. -/
theorem get_datetime_as_int_spec_witness :
    sampleSetState.datetime = canonicalString 2024 1 15 9 0 ∧
    (initState ⟨2024, 1, 1⟩).datetime = "" ∧
    (get_datetime_as_int sampleSetState = some 20240115090000 ∧
     get_datetime_as_int (initState ⟨2024, 1, 1⟩) = some 0) :=
  ⟨rfl, rfl,
    get_datetime_as_int_spec sampleSetState (initState ⟨2024, 1, 1⟩) 2024 1 15 9 0
      (by decide) (by decide) (by decide) (by decide) (by decide) rfl rfl⟩

/-- Claim C9: Clear empties the stored string and emits once but leaves the
steppers and calendar at their previous values, while `set_datetime("")`
resets both steppers to 0, selects the current local day and emits nothing;
the sub-controls end in observably different states (when the previous hour
was non-zero) although every getter reports unset after either. -/
theorem clear_vs_set_empty (s : DTState) (today : Date) (hne : s.hour ≠ 0) :
    (on_clear_btn_clicked s).datetime = "" ∧
    (on_clear_btn_clicked s).emits = s.emits + 1 ∧
    (on_clear_btn_clicked s).hour = s.hour ∧
    (on_clear_btn_clicked s).minutes = s.minutes ∧
    (on_clear_btn_clicked s).calendar = s.calendar ∧
    (set_datetime "" today s).raised = false ∧
    (set_datetime "" today s).state.datetime = "" ∧
    (set_datetime "" today s).state.hour = 0 ∧
    (set_datetime "" today s).state.minutes = 0 ∧
    (set_datetime "" today s).state.calendar = today ∧
    (set_datetime "" today s).state.emits = s.emits ∧
    (on_clear_btn_clicked s).hour ≠ (set_datetime "" today s).state.hour ∧
    get_datetime (on_clear_btn_clicked s) = "" ∧
    get_human_datetime (on_clear_btn_clicked s) = gettext "Not Set" ∧
    get_datetime_as_int (on_clear_btn_clicked s) = some 0 ∧
    get_datetime (set_datetime "" today s).state = "" ∧
    get_human_datetime (set_datetime "" today s).state = gettext "Not Set" ∧
    get_datetime_as_int (set_datetime "" today s).state = some 0 := by
  rw [set_datetime_empty today s]
  refine ⟨rfl, rfl, rfl, rfl, rfl, rfl, rfl, rfl, rfl, rfl, rfl, hne, rfl, ?_, ?_, rfl, ?_, ?_⟩
  · unfold get_human_datetime on_clear_btn_clicked
    simp
  · unfold get_datetime_as_int on_clear_btn_clicked
    simp
  · unfold get_human_datetime
    simp
  · unfold get_datetime_as_int
    simp

/-- Witness for C9 at a state with hour 9, minute 5. -/
theorem clear_vs_set_empty_witness :
    sampleState.hour ≠ 0 ∧
    ((on_clear_btn_clicked sampleState).datetime = "" ∧
     (on_clear_btn_clicked sampleState).emits = sampleState.emits + 1 ∧
     (on_clear_btn_clicked sampleState).hour = sampleState.hour ∧
     (on_clear_btn_clicked sampleState).minutes = sampleState.minutes ∧
     (on_clear_btn_clicked sampleState).calendar = sampleState.calendar ∧
     (set_datetime "" ⟨2024, 3, 3⟩ sampleState).raised = false ∧
     (set_datetime "" ⟨2024, 3, 3⟩ sampleState).state.datetime = "" ∧
     (set_datetime "" ⟨2024, 3, 3⟩ sampleState).state.hour = 0 ∧
     (set_datetime "" ⟨2024, 3, 3⟩ sampleState).state.minutes = 0 ∧
     (set_datetime "" ⟨2024, 3, 3⟩ sampleState).state.calendar = ⟨2024, 3, 3⟩ ∧
     (set_datetime "" ⟨2024, 3, 3⟩ sampleState).state.emits = sampleState.emits ∧
     (on_clear_btn_clicked sampleState).hour ≠ (set_datetime "" ⟨2024, 3, 3⟩ sampleState).state.hour ∧
     get_datetime (on_clear_btn_clicked sampleState) = "" ∧
     get_human_datetime (on_clear_btn_clicked sampleState) = gettext "Not Set" ∧
     get_datetime_as_int (on_clear_btn_clicked sampleState) = some 0 ∧
     get_datetime (set_datetime "" ⟨2024, 3, 3⟩ sampleState).state = "" ∧
     get_human_datetime (set_datetime "" ⟨2024, 3, 3⟩ sampleState).state = gettext "Not Set" ∧
     get_datetime_as_int (set_datetime "" ⟨2024, 3, 3⟩ sampleState).state = some 0) :=
  ⟨by decide, clear_vs_set_empty sampleState ⟨2024, 3, 3⟩ (by decide)⟩

/-- Claim C10: a time-preset press splits its label `"HH:MM"` and only assigns
the encoded hour then minute to the two steppers, with no explicit emit; one
change notification fires per stepper whose value actually changes, so a press
emits two, one, or zero notifications. -/
theorem time_preset_emits (s : DTState) (label : String) (h mi : Nat)
    (hu : s.lock_signals = false)
    (hl : (label = "09:00" ∧ h = 9 ∧ mi = 0) ∨ (label = "13:00" ∧ h = 13 ∧ mi = 0) ∨
          (label = "17:00" ∧ h = 17 ∧ mi = 0) ∨ (label = "20:00" ∧ h = 20 ∧ mi = 0)) :
    ∃ s', on_time_preset_clicked label s = some s' ∧
      s'.hour = h ∧ s'.minutes = mi ∧ s'.calendar = s.calendar ∧
      s'.emits = s.emits + (if h = s.hour then 0 else 1) + (if mi = s.minutes then 0 else 1) := by
  rcases hl with ⟨hl1, hl2, hl3⟩ | ⟨hl1, hl2, hl3⟩ | ⟨hl1, hl2, hl3⟩ | ⟨hl1, hl2, hl3⟩ <;>
    subst hl1 <;> subst hl2 <;> subst hl3
  · obtain ⟨p1, p2, p3, p4⟩ := preset_steppers s 9 0 (by omega) (by omega) hu
    exact ⟨_, rfl, p1, p2, p3, p4⟩
  · obtain ⟨p1, p2, p3, p4⟩ := preset_steppers s 13 0 (by omega) (by omega) hu
    exact ⟨_, rfl, p1, p2, p3, p4⟩
  · obtain ⟨p1, p2, p3, p4⟩ := preset_steppers s 17 0 (by omega) (by omega) hu
    exact ⟨_, rfl, p1, p2, p3, p4⟩
  · obtain ⟨p1, p2, p3, p4⟩ := preset_steppers s 20 0 (by omega) (by omega) hu
    exact ⟨_, rfl, p1, p2, p3, p4⟩

/-- Witness for C10: pressing "09:00" on a state already at hour 9 and minute
5 emits exactly one notification (only the minute stepper changes). -/
theorem time_preset_emits_witness :
    sampleState.lock_signals = false ∧
    (∃ s', on_time_preset_clicked "09:00" sampleState = some s' ∧
       s'.hour = 9 ∧ s'.minutes = 0 ∧ s'.calendar = sampleState.calendar ∧
       s'.emits = sampleState.emits + (if 9 = sampleState.hour then 0 else 1) +
         (if 0 = sampleState.minutes then 0 else 1)) :=
  ⟨rfl, time_preset_emits sampleState "09:00" 9 0 rfl (Or.inl ⟨rfl, rfl, rfl⟩)⟩

end Errands
